import Mathlib

/-!
Shallow embedding of `src/Equilibrate.py` (EQUILIBRATE star-rating system).

Modelling conventions:
- Python floats are modelled as real numbers (`ℝ`).
- Timestamps (ISO datetimes in the source) are modelled as integer seconds
  since an epoch; `timedelta.days` is floored division by 86400 (`Int.fdiv`),
  matching Python's floor semantics, and the fractional day count used by
  `apply_decay` is real division by 86400.
- Python dicts `self.ratings` and `self.last_feedback` are modelled as
  `Option`-valued functions; the iterated dict `self.meta` is modelled as an
  association list with unique keys (Python dicts have unique keys).
- `raise ValueError` is modelled by an `Except`-style error value; since the
  raise in `process_feedback` happens before any mutation, the state component
  returned on the error path is the unchanged input state.
- The optional transformers sentiment pipeline is an external collaborator;
  the engine is modelled with the lexical fallback (`advanced_sentiment`
  disabled), which is the only classifier present in the source itself.
-/

abbrev UserId := String

/-- Resolved three-way sentiment label. -/
inductive Sentiment where
  | positive
  | negative
  | neutral
deriving DecidableEq, Repr

/-- POS_WORDS from the source: fixed positive word set (as a list; the Python
set literal has no duplicates). -/
def POS_WORDS : List String :=
  [ "good", "great", "awesome", "nice", "love", "excellent", "amazing",
    "like", "well", "fantastic", "brilliant", "happy", "recommend"]

/-- NEG_WORDS from the source: fixed negative word set. -/
def NEG_WORDS : List String :=
  [ "bad", "terrible", "hate", "awful", "worst", "dislike",
    "sucks", "stupid", "vulgar", "disgusting", "scam", "fraud"]

/-- Head-anchored match: does `w` occur at the start of `t`? -/
def matchesAt : List Char → List Char → Bool
  | [], _ => true
  | _ :: _, [] => false
  | c :: w, d :: t => c = d && matchesAt w t

/-- Scan for an occurrence of `w` anywhere in `t`. -/
def containsAux (w : List Char) : List Char → Bool
  | [] => matchesAt w []
  | d :: t => matchesAt w (d :: t) || containsAux w t

/-- Python `text.lower()`, on the character-list view of the string. -/
def lowerStr (t : String) : List Char :=
  t.toList.map Char.toLower

/-- Python `w in text_l`: substring membership test against the lowered
character list. -/
def containsWord (text_l : List Char) (w : String) : Bool :=
  containsAux w.toList text_l

/-- `simple_rule_sentiment` from the source. The input is `Option String`
(`none` models a non-text / `None` input); `not text` is also true for the
empty string. The two loops over the word sets are folds accumulating the
score. -/
def simple_rule_sentiment (text : Option String) : Sentiment :=
  match text with
  | none => Sentiment.neutral
  | some t =>
    if t.toList.isEmpty then Sentiment.neutral
    else
      let text_l := lowerStr t
      let score : ℤ :=
        POS_WORDS.foldl (fun sc w => if containsWord text_l w then sc + 1 else sc) 0
      let score := NEG_WORDS.foldl (fun sc w => if containsWord text_l w then sc - 1 else sc) score
      if score > 0 then Sentiment.positive
      else if score < 0 then Sentiment.negative
      else Sentiment.neutral

/-- History event: either a feedback application or a decay application. -/
inductive HistEvent where
  | feedback (t : ℤ) (rater : UserId) (feedback_type : String) (polarity : Sentiment)
      (old_rating change new_rating : ℝ)
  | decay (t : ℤ) (old_rating new_rating : ℝ)

/-- Per-user metadata: counters, last-update timestamp, bounded history. -/
structure UserMeta where
  received_count : ℕ
  positive_count : ℕ
  negative_count : ℕ
  last_updated : ℤ
  history : List HistEvent

/-- Default metadata entry created by the `defaultdict` factory: zero counters,
creation-time timestamp, empty history. -/
def defaultMeta (now : ℤ) : UserMeta :=
  { received_count := 0, positive_count := 0, negative_count := 0,
    last_updated := now, history := [] }

/-- Appeal record appended by `file_appeal`. -/
structure Appeal where
  user : UserId
  reason : String
  time : ℤ

/-- The `StarRatingSystem` object: configuration knobs plus mutable stores. -/
structure StarRatingSystem where
  base_change : ℝ
  min_rating : ℝ
  max_rating : ℝ
  neutral : ℝ
  decay_half_life_days : ℝ
  cooldown_days : ℤ
  ratings : UserId → Option ℝ
  meta : List (UserId × UserMeta)
  last_feedback : UserId × UserId → Option ℤ
  appeal_log : List Appeal

/-- `get_rating`: stored rating, defaulting to neutral for unseen users. -/
noncomputable def get_rating (sys : StarRatingSystem) (user_id : UserId) : ℝ :=
  (sys.ratings user_id).getD sys.neutral

/-- Clamp a value into the configured rating bounds. -/
noncomputable def _clamp (sys : StarRatingSystem) (val : ℝ) : ℝ :=
  max sys.min_rating (min sys.max_rating val)

/-- `_cooldown_ok`: true if no prior feedback from rater to target, or if the
elapsed whole days (floored) since it reach `cooldown_days`. -/
def _cooldown_ok (sys : StarRatingSystem) (target_user rater_user : UserId) (now : ℤ) : Bool :=
  match sys.last_feedback (rater_user, target_user) with
  | none => true
  | some last_time => sys.cooldown_days ≤ Int.fdiv (now - last_time) 86400

/-- `_influence_weight`: rater influence from their own rating. -/
noncomputable def _influence_weight (sys : StarRatingSystem) (rater_rating : ℝ) : ℝ :=
  0.1 + 1.1 * Real.sqrt (rater_rating / sys.max_rating)

/-- `_difficulty_modifier`: damping from the target's current rating. -/
noncomputable def _difficulty_modifier (sys : StarRatingSystem) (target_rating : ℝ) : ℝ :=
  max 0.12 (1.0 - (target_rating / sys.max_rating) ^ 3)

/-- `sentiment_from_text` with the advanced pipeline disabled (the pipeline is
an external collaborator; the source falls back to `simple_rule_sentiment`). -/
def sentiment_from_text (text : Option String) : Sentiment :=
  simple_rule_sentiment text

/-- Feedback-type dispatch of `process_feedback`: `none` models the
`raise ValueError` branch for an invalid `feedback_type`. -/
def polarityOf (feedback_type : String) (comment_text : Option String) : Option Sentiment :=
  if feedback_type = "like" then some Sentiment.positive
  else if feedback_type = "dislike" then some Sentiment.negative
  else if feedback_type = "comment" then some (sentiment_from_text comment_text)
  else none

/-- The type multiplier dict lookup (only reached with a valid type). -/
def typeMult (feedback_type : String) : ℝ :=
  if feedback_type = "like" then 0.6
  else if feedback_type = "dislike" then 0.8
  else 1.0

/-- Python `round(x, 4)` modelled as rounding to 4 decimal places (ties are a
float-representation artefact in Python and are modelled as round-half-up). -/
noncomputable def round4 (x : ℝ) : ℝ :=
  (round (x * 10000) : ℤ) / 10000

/-- Bounded history append: `deque(maxlen=500)` drops the oldest entry when
full. -/
def pushHist (h : List HistEvent) (e : HistEvent) : List HistEvent :=
  if h.length < 500 then h ++ [e] else h.tail ++ [e]

/-- Dict write `self.meta[k] = v` on the association list: replace in place if
the key is present, else append. -/
def metaInsert (l : List (UserId × UserMeta)) (uid : UserId) (m : UserMeta) :
    List (UserId × UserMeta) :=
  match l with
  | [] => [(uid, m)]
  | (k, v) :: rest => if k = uid then (k, m) :: rest else (k, v) :: metaInsert rest uid m

/-- The InvalidArgument error of the spec: the `ValueError` raised by
`process_feedback` on an invalid `feedback_type`. -/
inductive FeedbackError where
  | invalidArgument
deriving DecidableEq

/-- The commit part of `process_feedback` (everything after polarity
resolution): compute the change, clamp, write rating, update metadata and
history, write the cooldown entry. Returns the new rating and new state. -/
noncomputable def applyFeedback (sys : StarRatingSystem) (now : ℤ)
    (target_user rater_user : UserId) (feedback_type : String)
    (polarity : Sentiment) : ℝ × StarRatingSystem :=
  let target_rating := get_rating sys target_user
  let rater_rating := get_rating sys rater_user
  let influence := _influence_weight sys rater_rating
  let type_mult := typeMult feedback_type
  let direction : ℤ :=
    if polarity = Sentiment.positive then 1
    else if polarity = Sentiment.negative then -1
    else 0
  let change : ℝ :=
    if direction ≠ 0 then
      sys.base_change * influence * type_mult * (direction : ℝ) *
        _difficulty_modifier sys target_rating
    else 0.0
  let new_rating := _clamp sys (target_rating + change)
  let m := (sys.meta.lookup target_user).getD (defaultMeta now)
  let m' : UserMeta :=
    { received_count := m.received_count + 1,
      positive_count := m.positive_count + (if direction = 1 then 1 else 0),
      negative_count := m.negative_count + (if direction = -1 then 1 else 0),
      last_updated := now,
      history := pushHist m.history
        (HistEvent.feedback now rater_user feedback_type polarity
          target_rating (round4 change) new_rating) }
  (new_rating,
   { sys with
     ratings := fun u => if u = target_user then some new_rating else sys.ratings u,
     meta := metaInsert sys.meta target_user m',
     last_feedback := fun k =>
       if k = (rater_user, target_user) then some now else sys.last_feedback k })

/-- `process_feedback` from the source. The cooldown gate runs first; the
`ValueError` for an invalid `feedback_type` is raised before any mutation, so
the error path returns the input state unchanged. -/
noncomputable def process_feedback (sys : StarRatingSystem) (now : ℤ)
    (target_user rater_user : UserId) (feedback_type : String)
    (comment_text : Option String) : Except FeedbackError ℝ × StarRatingSystem :=
  if ¬ _cooldown_ok sys target_user rater_user now then
    (Except.ok (get_rating sys target_user), sys)
  else
    match polarityOf feedback_type comment_text with
    | none => (Except.error FeedbackError.invalidArgument, sys)
    | some polarity =>
      let r := applyFeedback sys now target_user rater_user feedback_type polarity
      (Except.ok r.1, r.2)

/-- `bulk_process`: apply `process_feedback` in order; a failure propagates
and aborts the remainder (state mutated by earlier entries persists). -/
noncomputable def bulk_process (sys : StarRatingSystem) (now : ℤ) :
    List (UserId × UserId × String × Option String) →
      Except FeedbackError (List ℝ) × StarRatingSystem
  | [] => (Except.ok [], sys)
  | fb :: rest =>
    match process_feedback sys now fb.1 fb.2.1 fb.2.2.1 fb.2.2.2 with
    | (Except.error e, sys1) => (Except.error e, sys1)
    | (Except.ok v, sys1) =>
      match bulk_process sys1 now rest with
      | (Except.error e, sys2) => (Except.error e, sys2)
      | (Except.ok vs, sys2) => (Except.ok (v :: vs), sys2)

/-- The per-user loop body of `apply_decay`, threading the ratings store
through the iteration over the metadata entries. `k` is the decay constant
`ln 2 / max 1 half_life`. -/
noncomputable def applyDecayGo (sys : StarRatingSystem) (now : ℤ)
    (ratings : UserId → Option ℝ) :
    List (UserId × UserMeta) → (UserId → Option ℝ) × List (UserId × UserMeta)
  | [] => (ratings, [])
  | (uid, m) :: rest =>
    let k := Real.log 2 / max 1.0 sys.decay_half_life_days
    let days : ℝ := ((now - m.last_updated : ℤ) : ℝ) / 86400
    if days ≤ 0 then
      let r := applyDecayGo sys now ratings rest
      (r.1, (uid, m) :: r.2)
    else
      let old_r := (ratings uid).getD sys.neutral
      let factor := Real.exp (-k * days)
      let decayed := sys.neutral + (old_r - sys.neutral) * factor
      let new_r := _clamp sys decayed
      let ratings' := fun u => if u = uid then some new_r else ratings u
      let m' : UserMeta :=
        { m with last_updated := now,
                 history := pushHist m.history (HistEvent.decay now old_r new_r) }
      let r := applyDecayGo sys now ratings' rest
      (r.1, (uid, m') :: r.2)

/-- `apply_decay` from the source: relax every user with metadata toward
neutral, skipping users whose elapsed time is not positive. -/
noncomputable def apply_decay (sys : StarRatingSystem) (now : ℤ) : StarRatingSystem :=
  let r := applyDecayGo sys now sys.ratings sys.meta
  { sys with ratings := r.1, meta := r.2 }

/-- `file_appeal`: append an appeal record; no effect on rating state. -/
def file_appeal (sys : StarRatingSystem) (now : ℤ) (target_user : UserId)
    (reason : String) : StarRatingSystem :=
  { sys with appeal_log := sys.appeal_log ++ [⟨target_user, reason, now⟩] }

/-- `anonymized_report`: rating plus the three counters (pure read). -/
noncomputable def anonymized_report (sys : StarRatingSystem) (user_id : UserId) :
    ℝ × ℕ × ℕ × ℕ :=
  let m := (sys.meta.lookup user_id).getD (defaultMeta 0)
  (get_rating sys user_id, m.received_count, m.positive_count, m.negative_count)

/-- `full_report`: all metadata fields plus current rating (pure read). -/
noncomputable def full_report (sys : StarRatingSystem) (user_id : UserId) :
    Option UserMeta × ℝ :=
  (sys.meta.lookup user_id, get_rating sys user_id)

/-! Invariants, example states, and basic lemmas. -/

/-- All stored ratings lie within the configured bounds. -/
def RatingsClamped (sys : StarRatingSystem) : Prop :=
  ∀ u r, sys.ratings u = some r → sys.min_rating ≤ r ∧ r ≤ sys.max_rating

/-- A freshly constructed system with the default configuration and empty
stores, used to instantiate the general theorems. -/
noncomputable def sysEx0 : StarRatingSystem :=
  { base_change := 0.06, min_rating := 0, max_rating := 5, neutral := 2.5,
    decay_half_life_days := 90, cooldown_days := 7,
    ratings := fun _ => none, meta := [], last_feedback := fun _ => none,
    appeal_log := [] }

lemma _clamp_mem (sys : StarRatingSystem) (h : sys.min_rating ≤ sys.max_rating) (v : ℝ) :
    sys.min_rating ≤ _clamp sys v ∧ _clamp sys v ≤ sys.max_rating :=
  ⟨le_max_left _ _, max_le h (min_le_left _ _)⟩

lemma _clamp_id (sys : StarRatingSystem) (v : ℝ) (h1 : sys.min_rating ≤ v)
    (h2 : v ≤ sys.max_rating) : _clamp sys v = v := by
  unfold _clamp
  rw [min_eq_right h2, max_eq_right h1]

lemma get_rating_mem (sys : StarRatingSystem) (u : UserId) (hcl : RatingsClamped sys)
    (h1 : sys.min_rating ≤ sys.neutral) (h2 : sys.neutral ≤ sys.max_rating) :
    sys.min_rating ≤ get_rating sys u ∧ get_rating sys u ≤ sys.max_rating := by
  unfold get_rating
  cases h : sys.ratings u with
  | none => simpa using ⟨h1, h2⟩
  | some r => simpa using hcl u r h

lemma round4_zero : round4 0 = 0 := by
  simp [round4]

lemma lookup_metaInsert (l : List (UserId × UserMeta)) (uid : UserId) (m : UserMeta)
    (u : UserId) :
    (metaInsert l uid m).lookup u = if u = uid then some m else l.lookup u := by
  induction l with
  | nil =>
    by_cases h : u = uid
    · simp [metaInsert, List.lookup, h]
    · have hb : (u == uid) = false := beq_eq_false_iff_ne.mpr h
      simp [metaInsert, List.lookup, h, hb]
  | cons kv rest ih =>
    obtain ⟨k, v⟩ := kv
    by_cases hk : k = uid
    · subst hk
      by_cases hu : u = k
      · simp [metaInsert, List.lookup, hu]
      · have hb : (u == k) = false := beq_eq_false_iff_ne.mpr hu
        simp [metaInsert, List.lookup, hu, hb]
    · by_cases hu : u = k
      · subst hu
        simp [metaInsert, hk, List.lookup, Ne.symm hk]
      · have hb : (u == k) = false := beq_eq_false_iff_ne.mpr hu
        simp [metaInsert, hk, List.lookup, hu, hb, ih]

lemma process_feedback_blocked (sys : StarRatingSystem) (now : ℤ)
    (target rater : UserId) (ft : String) (c : Option String)
    (h : _cooldown_ok sys target rater now = false) :
    process_feedback sys now target rater ft c =
      (Except.ok (get_rating sys target), sys) := by
  unfold process_feedback
  simp [h]

lemma process_feedback_invalid (sys : StarRatingSystem) (now : ℤ)
    (target rater : UserId) (ft : String) (c : Option String)
    (h : _cooldown_ok sys target rater now = true)
    (hp : polarityOf ft c = none) :
    process_feedback sys now target rater ft c =
      (Except.error FeedbackError.invalidArgument, sys) := by
  unfold process_feedback
  simp [h, hp]

lemma process_feedback_accepted (sys : StarRatingSystem) (now : ℤ)
    (target rater : UserId) (ft : String) (c : Option String) (p : Sentiment)
    (h : _cooldown_ok sys target rater now = true)
    (hp : polarityOf ft c = some p) :
    process_feedback sys now target rater ft c =
      (Except.ok (applyFeedback sys now target rater ft p).1,
       (applyFeedback sys now target rater ft p).2) := by
  unfold process_feedback
  simp [h, hp]

/-- C6: the influence weight equals `0.1 + 1.1 * sqrt(rater_rating / max_rating)`,
is monotonically non-decreasing in the rater's rating on `[0, max_rating]`,
equals 0.1 at rater rating 0, and equals 1.2 at rater rating `max_rating`. -/
theorem claim_C6_influence_weight (sys : StarRatingSystem) (hmax : 0 < sys.max_rating)
    (r1 r2 : ℝ) (h0 : 0 ≤ r1) (h12 : r1 ≤ r2) (h2 : r2 ≤ sys.max_rating) :
    _influence_weight sys r1 = 0.1 + 1.1 * Real.sqrt (r1 / sys.max_rating) ∧
    _influence_weight sys r1 ≤ _influence_weight sys r2 ∧
    _influence_weight sys 0 = 0.1 ∧
    _influence_weight sys sys.max_rating = 1.2 := by
  refine ⟨rfl, ?_, ?_, ?_⟩
  · unfold _influence_weight
    have hd : r1 / sys.max_rating ≤ r2 / sys.max_rating :=
      (div_le_div_iff_of_pos_right hmax).mpr h12
    have hs := Real.sqrt_le_sqrt hd
    nlinarith [hs]
  · unfold _influence_weight
    rw [zero_div, Real.sqrt_zero]
    norm_num
  · unfold _influence_weight
    rw [div_self (ne_of_gt hmax), Real.sqrt_one]
    norm_num

theorem claim_C6_witness :
    _influence_weight sysEx0 0 = 0.1 + 1.1 * Real.sqrt (0 / sysEx0.max_rating) ∧
    _influence_weight sysEx0 0 ≤ _influence_weight sysEx0 5 ∧
    _influence_weight sysEx0 0 = 0.1 ∧
    _influence_weight sysEx0 sysEx0.max_rating = 1.2 :=
  claim_C6_influence_weight sysEx0 (show (0:ℝ) < 5 by norm_num) 0 5
    le_rfl (by norm_num) (show (5:ℝ) ≤ 5 by norm_num)

/-- C7: the difficulty modifier equals `max(0.12, 1 - (target/max)^3)`, is
monotonically non-increasing in the target's rating, and never drops below
0.12. -/
theorem claim_C7_difficulty_modifier (sys : StarRatingSystem)
    (hmax : 0 < sys.max_rating) (r1 r2 : ℝ) (h12 : r1 ≤ r2) :
    _difficulty_modifier sys r1 = max 0.12 (1.0 - (r1 / sys.max_rating) ^ 3) ∧
    _difficulty_modifier sys r2 ≤ _difficulty_modifier sys r1 ∧
    (∀ r, 0.12 ≤ _difficulty_modifier sys r) := by
  refine ⟨rfl, ?_, fun r => le_max_left _ _⟩
  unfold _difficulty_modifier
  have hd : r1 / sys.max_rating ≤ r2 / sys.max_rating :=
    (div_le_div_iff_of_pos_right hmax).mpr h12
  have hodd : Odd 3 := ⟨1, by norm_num⟩
  have hc : (r1 / sys.max_rating) ^ 3 ≤ (r2 / sys.max_rating) ^ 3 := by
    have := (Odd.strictMono_pow (R := ℝ) hodd).monotone hd
    simpa using this
  have hsub : 1.0 - (r2 / sys.max_rating) ^ 3 ≤ 1.0 - (r1 / sys.max_rating) ^ 3 := by
    linarith
  exact max_le_max le_rfl hsub

theorem claim_C7_witness :
    _difficulty_modifier sysEx0 0 = max 0.12 (1.0 - (0 / sysEx0.max_rating) ^ 3) ∧
    _difficulty_modifier sysEx0 5 ≤ _difficulty_modifier sysEx0 0 ∧
    (∀ r, 0.12 ≤ _difficulty_modifier sysEx0 r) :=
  claim_C7_difficulty_modifier sysEx0 (show (0:ℝ) < 5 by norm_num) 0 5 (by norm_num)

lemma foldl_incr_count (p : String → Bool) (init : ℤ) (l : List String) :
    l.foldl (fun sc w => if p w then sc + 1 else sc) init = init + l.countP p := by
  induction l generalizing init with
  | nil => simp
  | cons w t ih =>
    by_cases h : p w <;> simp [List.countP_cons, h, ih] <;> push_cast <;> ring

lemma foldl_decr_count (p : String → Bool) (init : ℤ) (l : List String) :
    l.foldl (fun sc w => if p w then sc - 1 else sc) init = init - l.countP p := by
  induction l generalizing init with
  | nil => simp
  | cons w t ih =>
    by_cases h : p w <;> simp [List.countP_cons, h, ih] <;> push_cast <;> ring

/-- C8: the lexical classifier is total with range {positive, negative,
neutral}; it returns neutral on `None` or empty input; on nonempty text the
label is determined by the count of positive-set words occurring in the
lowered text minus the count of negative-set words so occurring. -/
theorem claim_C8_classifier (text : Option String) :
    (simple_rule_sentiment text = Sentiment.positive ∨
     simple_rule_sentiment text = Sentiment.negative ∨
     simple_rule_sentiment text = Sentiment.neutral) ∧
    (text = none → simple_rule_sentiment text = Sentiment.neutral) ∧
    (∀ t, text = some t → t.toList.isEmpty = true →
      simple_rule_sentiment text = Sentiment.neutral) ∧
    (∀ t, text = some t → t.toList.isEmpty = false →
      simple_rule_sentiment text =
        (if ((POS_WORDS.countP (fun w => containsWord (lowerStr t) w) : ℤ) -
             (NEG_WORDS.countP (fun w => containsWord (lowerStr t) w) : ℤ)) > 0 then
           Sentiment.positive
         else if ((POS_WORDS.countP (fun w => containsWord (lowerStr t) w) : ℤ) -
             (NEG_WORDS.countP (fun w => containsWord (lowerStr t) w) : ℤ)) < 0 then
           Sentiment.negative
         else Sentiment.neutral)) := by
  refine ⟨?_, ?_, ?_, ?_⟩
  · rcases h : simple_rule_sentiment text with _ | _ | _ <;> simp
  · rintro rfl
    rfl
  · rintro t rfl ht
    have ht2 : t.data = [] := by simpa using ht
    simp [simple_rule_sentiment, ht2]
  · rintro t rfl ht
    simp only [simple_rule_sentiment, ht, Bool.false_eq_true, if_false]
    rw [foldl_incr_count, foldl_decr_count]
    norm_num

theorem claim_C8_witness :
    (simple_rule_sentiment (some "I love this, great job!") = Sentiment.positive ∨
     simple_rule_sentiment (some "I love this, great job!") = Sentiment.negative ∨
     simple_rule_sentiment (some "I love this, great job!") = Sentiment.neutral) ∧
    ((some "I love this, great job!" : Option String) = none →
      simple_rule_sentiment (some "I love this, great job!") = Sentiment.neutral) ∧
    (∀ t, (some "I love this, great job!" : Option String) = some t →
      t.toList.isEmpty = true →
      simple_rule_sentiment (some "I love this, great job!") = Sentiment.neutral) ∧
    (∀ t, (some "I love this, great job!" : Option String) = some t →
      t.toList.isEmpty = false →
      simple_rule_sentiment (some "I love this, great job!") =
        (if ((POS_WORDS.countP (fun w => containsWord (lowerStr t) w) : ℤ) -
             (NEG_WORDS.countP (fun w => containsWord (lowerStr t) w) : ℤ)) > 0 then
           Sentiment.positive
         else if ((POS_WORDS.countP (fun w => containsWord (lowerStr t) w) : ℤ) -
             (NEG_WORDS.countP (fun w => containsWord (lowerStr t) w) : ℤ)) < 0 then
           Sentiment.negative
         else Sentiment.neutral)) :=
  claim_C8_classifier (some "I love this, great job!")

/-- C9: `get_rating` returns exactly the neutral rating for a user with no
entry in the rating store (and the embedded `get_rating` is a pure function of
the state, so it mutates nothing). -/
theorem claim_C9_get_rating_default (sys : StarRatingSystem) (u : UserId)
    (h : sys.ratings u = none) : get_rating sys u = sys.neutral := by
  unfold get_rating
  rw [h]
  rfl

theorem claim_C9_witness : get_rating sysEx0 "alice" = sysEx0.neutral :=
  claim_C9_get_rating_default sysEx0 "alice" rfl

/-- A system with an active cooldown entry: rater bob gave feedback to target
alice at time 0, and `cooldown_days = 7` has not elapsed at time 0. -/
noncomputable def sysExCooldown : StarRatingSystem :=
  { sysEx0 with last_feedback := fun k => if k = ( "bob", "alice") then some 0 else none }

/-- C1 (counterexample): with an active cooldown for (bob, alice), a call with
the invalid `feedback_type = "spam"` does NOT fail — the cooldown gate runs
before validation, so the call returns the current rating without error and
without mutation, contradicting the claim that it fails regardless of prior
state. -/
theorem claim_C1_counterexample :
    process_feedback sysExCooldown 0 "alice" "bob" "spam" none =
      (Except.ok sysExCooldown.neutral, sysExCooldown) ∧
    ∀ e, (process_feedback sysExCooldown 0 "alice" "bob" "spam" none).1 ≠
      Except.error e := by
  have hcd : _cooldown_ok sysExCooldown "alice" "bob" 0 = false := by decide
  have h := process_feedback_blocked sysExCooldown 0 "alice" "bob" "spam" none hcd
  constructor
  · rw [h]
    rfl
  · intro e
    rw [h]
    simp

/-- C1 (amended): a call with `feedback_type` outside {like, dislike, comment}
fails with the InvalidArgument error and leaves the state unchanged whenever
the cooldown gate passes; when an active cooldown entry for (rater, target)
exists, the call instead returns the current rating without error and without
mutation. -/
theorem claim_C1_invalid_type (sys : StarRatingSystem) (now : ℤ)
    (target rater : UserId) (ft : String) (c : Option String)
    (h1 : ft ≠ "like") (h2 : ft ≠ "dislike") (h3 : ft ≠ "comment") :
    (_cooldown_ok sys target rater now = true →
       process_feedback sys now target rater ft c =
         (Except.error FeedbackError.invalidArgument, sys)) ∧
    (_cooldown_ok sys target rater now = false →
       process_feedback sys now target rater ft c =
         (Except.ok (get_rating sys target), sys)) := by
  constructor
  · intro hcd
    exact process_feedback_invalid sys now target rater ft c hcd
      (by simp [polarityOf, h1, h2, h3])
  · intro hcd
    exact process_feedback_blocked sys now target rater ft c hcd

theorem claim_C1_witness :
    (_cooldown_ok sysEx0 "alice" "bob" 0 = true →
       process_feedback sysEx0 0 "alice" "bob" "spam" none =
         (Except.error FeedbackError.invalidArgument, sysEx0)) ∧
    (_cooldown_ok sysEx0 "alice" "bob" 0 = false →
       process_feedback sysEx0 0 "alice" "bob" "spam" none =
         (Except.ok (get_rating sysEx0 "alice"), sysEx0)) :=
  claim_C1_invalid_type sysEx0 0 "alice" "bob" "spam" none
    (by decide) (by decide) (by decide)

/-- C3: when a cooldown entry exists for (rater, target) and strictly fewer
than `cooldown_days` whole (floored) days elapsed since it, `process_feedback`
returns the pre-existing target rating and the whole state — rating store,
metadata, history, cooldown tracker, appeal log — unchanged. -/
theorem claim_C3_cooldown_noop (sys : StarRatingSystem) (now last : ℤ)
    (target rater : UserId) (ft : String) (c : Option String)
    (hentry : sys.last_feedback (rater, target) = some last)
    (helapsed : Int.fdiv (now - last) 86400 < sys.cooldown_days) :
    process_feedback sys now target rater ft c =
      (Except.ok (get_rating sys target), sys) := by
  apply process_feedback_blocked
  unfold _cooldown_ok
  rw [hentry]
  exact decide_eq_false (not_le.mpr helapsed)

theorem claim_C3_witness :
    process_feedback sysExCooldown 0 "alice" "bob" "like" none =
      (Except.ok (get_rating sysExCooldown "alice"), sysExCooldown) :=
  claim_C3_cooldown_noop sysExCooldown 0 0 "alice" "bob" "like" none
    (by decide) (by decide)

lemma applyFeedback_frame (sys : StarRatingSystem) (now : ℤ) (target rater : UserId)
    (ft : String) (p : Sentiment) :
    (∀ u, u ≠ target →
       (applyFeedback sys now target rater ft p).2.ratings u = sys.ratings u) ∧
    (∀ u, u ≠ target →
       (applyFeedback sys now target rater ft p).2.meta.lookup u = sys.meta.lookup u) ∧
    (∀ kk, kk ≠ (rater, target) →
       (applyFeedback sys now target rater ft p).2.last_feedback kk =
         sys.last_feedback kk) ∧
    (applyFeedback sys now target rater ft p).2.appeal_log = sys.appeal_log := by
  refine ⟨fun u hu => ?_, fun u hu => ?_, fun kk hk => ?_, ?_⟩ <;>
    simp [applyFeedback, lookup_metaInsert, *]

/-- C10: an accepted (cooldown-passed, valid-type) feedback modifies only the
target's rating entry, the target's metadata entry, and the cooldown entry for
the ordered pair (rater, target); every other user's rating and metadata,
every other cooldown key, and the appeal log are unchanged. -/
theorem claim_C10_frame_effect (sys : StarRatingSystem) (now : ℤ)
    (target rater : UserId) (ft : String) (c : Option String) (p : Sentiment)
    (hcd : _cooldown_ok sys target rater now = true)
    (hp : polarityOf ft c = some p) :
    (∀ u, u ≠ target →
       (process_feedback sys now target rater ft c).2.ratings u = sys.ratings u) ∧
    (∀ u, u ≠ target →
       (process_feedback sys now target rater ft c).2.meta.lookup u =
         sys.meta.lookup u) ∧
    (∀ kk, kk ≠ (rater, target) →
       (process_feedback sys now target rater ft c).2.last_feedback kk =
         sys.last_feedback kk) ∧
    (process_feedback sys now target rater ft c).2.appeal_log = sys.appeal_log := by
  rw [process_feedback_accepted sys now target rater ft c p hcd hp]
  exact applyFeedback_frame sys now target rater ft p

theorem claim_C10_witness :
    (process_feedback sysEx0 0 "alice" "bob" "like" none).2.ratings "carol" =
      sysEx0.ratings "carol" ∧
    (process_feedback sysEx0 0 "alice" "bob" "like" none).2.meta.lookup "carol" =
      sysEx0.meta.lookup "carol" ∧
    (process_feedback sysEx0 0 "alice" "bob" "like" none).2.last_feedback
      ( "carol", "alice") = sysEx0.last_feedback ( "carol", "alice") ∧
    (process_feedback sysEx0 0 "alice" "bob" "like" none).2.appeal_log =
      sysEx0.appeal_log := by
  have h := claim_C10_frame_effect sysEx0 0 "alice" "bob" "like" none
    Sentiment.positive (by decide) (by decide)
  exact ⟨h.1 "carol" (by decide), h.2.1 "carol" (by decide),
    h.2.2.1 ( "carol", "alice") (by decide), h.2.2.2⟩

/-- C5: an accepted comment whose resolved polarity is neutral returns the
pre-existing rating, stores that same rating back, increments only
`received_count`, leaves the positive and negative counters unchanged, sets
`last_updated` to now, and appends a history record with change 0. -/
theorem claim_C5_neutral_comment (sys : StarRatingSystem) (now : ℤ)
    (target rater : UserId) (c : Option String)
    (hcd : _cooldown_ok sys target rater now = true)
    (hneu : sentiment_from_text c = Sentiment.neutral)
    (h1 : sys.min_rating ≤ sys.neutral) (h2 : sys.neutral ≤ sys.max_rating)
    (hcl : RatingsClamped sys) :
    (process_feedback sys now target rater "comment" c).1 =
      Except.ok (get_rating sys target) ∧
    (process_feedback sys now target rater "comment" c).2.ratings target =
      some (get_rating sys target) ∧
    (process_feedback sys now target rater "comment" c).2.meta.lookup target =
      some { received_count :=
               ((sys.meta.lookup target).getD (defaultMeta now)).received_count + 1,
             positive_count :=
               ((sys.meta.lookup target).getD (defaultMeta now)).positive_count,
             negative_count :=
               ((sys.meta.lookup target).getD (defaultMeta now)).negative_count,
             last_updated := now,
             history := pushHist
               ((sys.meta.lookup target).getD (defaultMeta now)).history
               (HistEvent.feedback now rater "comment" Sentiment.neutral
                 (get_rating sys target) 0 (get_rating sys target)) } := by
  have hp : polarityOf "comment" c = some Sentiment.neutral := by
    simp [polarityOf, hneu]
  rw [process_feedback_accepted sys now target rater "comment" c
    Sentiment.neutral hcd hp]
  have hz : (0.0 : ℝ) = 0 := by norm_num
  have hgr := get_rating_mem sys target hcl h1 h2
  have hcl2 : _clamp sys (get_rating sys target + 0.0) = get_rating sys target := by
    rw [hz, add_zero]
    exact _clamp_id sys _ hgr.1 hgr.2
  have hcl3 : _clamp sys (get_rating sys target) = get_rating sys target :=
    _clamp_id sys _ hgr.1 hgr.2
  refine ⟨?_, ?_, ?_⟩ <;>
    simp [applyFeedback, lookup_metaInsert, hcl2, hcl3, hz, round4_zero]

theorem claim_C5_witness :
    (process_feedback sysEx0 0 "alice" "bob" "comment" (some "hello")).1 =
      Except.ok (get_rating sysEx0 "alice") ∧
    (process_feedback sysEx0 0 "alice" "bob" "comment" (some "hello")).2.ratings
      "alice" = some (get_rating sysEx0 "alice") ∧
    (process_feedback sysEx0 0 "alice" "bob" "comment" (some "hello")).2.meta.lookup
      "alice" =
      some { received_count :=
               ((sysEx0.meta.lookup "alice").getD (defaultMeta 0)).received_count + 1,
             positive_count :=
               ((sysEx0.meta.lookup "alice").getD (defaultMeta 0)).positive_count,
             negative_count :=
               ((sysEx0.meta.lookup "alice").getD (defaultMeta 0)).negative_count,
             last_updated := 0,
             history := pushHist
               ((sysEx0.meta.lookup "alice").getD (defaultMeta 0)).history
               (HistEvent.feedback 0 "bob" "comment" Sentiment.neutral
                 (get_rating sysEx0 "alice") 0 (get_rating sysEx0 "alice")) } :=
  claim_C5_neutral_comment sysEx0 0 "alice" "bob" (some "hello")
    (by decide) (by decide)
    (show (0:ℝ) ≤ 2.5 by norm_num) (show (2.5:ℝ) ≤ 5 by norm_num)
    (fun u r h => Option.noConfusion h)

lemma process_feedback_min_max (sys : StarRatingSystem) (now : ℤ)
    (target rater : UserId) (ft : String) (c : Option String) :
    (process_feedback sys now target rater ft c).2.min_rating = sys.min_rating ∧
    (process_feedback sys now target rater ft c).2.max_rating = sys.max_rating := by
  cases hcd : _cooldown_ok sys target rater now with
  | false =>
    rw [process_feedback_blocked sys now target rater ft c hcd]
    exact ⟨rfl, rfl⟩
  | true =>
    cases hp : polarityOf ft c with
    | none =>
      rw [process_feedback_invalid sys now target rater ft c hcd hp]
      exact ⟨rfl, rfl⟩
    | some p =>
      rw [process_feedback_accepted sys now target rater ft c p hcd hp]
      constructor <;> simp [applyFeedback]

lemma applyFeedback_clamped (sys : StarRatingSystem) (now : ℤ) (target rater : UserId)
    (ft : String) (p : Sentiment)
    (hmm : sys.min_rating ≤ sys.max_rating) (hcl : RatingsClamped sys) :
    RatingsClamped (applyFeedback sys now target rater ft p).2 := by
  intro u r hr
  simp only [applyFeedback] at hr ⊢
  by_cases hu : u = target
  · rw [if_pos hu] at hr
    obtain rfl := Option.some.inj hr
    exact _clamp_mem sys hmm _
  · rw [if_neg hu] at hr
    exact hcl u r hr

lemma process_feedback_clamped (sys : StarRatingSystem) (now : ℤ)
    (target rater : UserId) (ft : String) (c : Option String)
    (hmm : sys.min_rating ≤ sys.max_rating) (hcl : RatingsClamped sys) :
    RatingsClamped (process_feedback sys now target rater ft c).2 := by
  cases hcd : _cooldown_ok sys target rater now with
  | false =>
    rw [process_feedback_blocked sys now target rater ft c hcd]
    exact hcl
  | true =>
    cases hp : polarityOf ft c with
    | none =>
      rw [process_feedback_invalid sys now target rater ft c hcd hp]
      exact hcl
    | some p =>
      rw [process_feedback_accepted sys now target rater ft c p hcd hp]
      exact applyFeedback_clamped sys now target rater ft p hmm hcl

lemma applyDecayGo_clamped (sys : StarRatingSystem) (now : ℤ)
    (hmm : sys.min_rating ≤ sys.max_rating) :
    ∀ (l : List (UserId × UserMeta)) (ratings : UserId → Option ℝ),
      (∀ u r, ratings u = some r → sys.min_rating ≤ r ∧ r ≤ sys.max_rating) →
      ∀ u r, (applyDecayGo sys now ratings l).1 u = some r →
        sys.min_rating ≤ r ∧ r ≤ sys.max_rating := by
  intro l
  induction l with
  | nil =>
    intro ratings h u r hr
    simp only [applyDecayGo] at hr
    exact h u r hr
  | cons kv rest ih =>
    intro ratings h u r hr
    obtain ⟨uid, m⟩ := kv
    simp only [applyDecayGo] at hr
    split at hr
    · exact ih ratings h u r hr
    · refine ih _ ?_ u r hr
      intro v rv hv
      by_cases hvu : v = uid
      · rw [if_pos hvu] at hv
        obtain rfl := Option.some.inj hv
        exact _clamp_mem sys hmm _
      · rw [if_neg hvu] at hv
        exact h v rv hv

lemma apply_decay_clamped (sys : StarRatingSystem) (now : ℤ)
    (hmm : sys.min_rating ≤ sys.max_rating) (hcl : RatingsClamped sys) :
    RatingsClamped (apply_decay sys now) := by
  intro u r hr
  simp only [apply_decay] at hr ⊢
  exact applyDecayGo_clamped sys now hmm sys.meta sys.ratings hcl u r hr

lemma bulk_process_clamped (now : ℤ) :
    ∀ (fbs : List (UserId × UserId × String × Option String))
      (sys : StarRatingSystem),
      sys.min_rating ≤ sys.max_rating → RatingsClamped sys →
      RatingsClamped (bulk_process sys now fbs).2 ∧
      (bulk_process sys now fbs).2.min_rating = sys.min_rating ∧
      (bulk_process sys now fbs).2.max_rating = sys.max_rating := by
  intro fbs
  induction fbs with
  | nil =>
    intro sys hmm hcl
    exact ⟨hcl, rfl, rfl⟩
  | cons fb rest ih =>
    intro sys hmm hcl
    have h1 := process_feedback_clamped sys now fb.1 fb.2.1 fb.2.2.1 fb.2.2.2 hmm hcl
    have h2 := process_feedback_min_max sys now fb.1 fb.2.1 fb.2.2.1 fb.2.2.2
    rcases hpf : process_feedback sys now fb.1 fb.2.1 fb.2.2.1 fb.2.2.2 with ⟨res, sys1⟩
    rw [hpf] at h1 h2
    simp only [bulk_process, hpf]
    cases res with
    | error e => exact ⟨h1, h2.1, h2.2⟩
    | ok v =>
      have hmm1 : sys1.min_rating ≤ sys1.max_rating := by
        rw [h2.1, h2.2]
        exact hmm
      have hrec := ih sys1 hmm1 h1
      rcases hb : bulk_process sys1 now rest with ⟨res2, sys2⟩
      dsimp only
      rw [hb] at hrec ⊢
      cases res2 with
      | error e =>
        exact ⟨hrec.1, hrec.2.1.trans h2.1, hrec.2.2.trans h2.2⟩
      | ok vs =>
        exact ⟨hrec.1, hrec.2.1.trans h2.1, hrec.2.2.trans h2.2⟩

/-- C2: provided `min_rating ≤ neutral_rating ≤ max_rating`, every value stored
in the rating store stays within `[min_rating, max_rating]` after any mutating
operation — `process_feedback` (any outcome), `apply_decay`, `file_appeal`,
and `bulk_process` (the reports are pure reads returning no state). -/
theorem claim_C2_clamp_invariant (sys : StarRatingSystem) (now : ℤ)
    (target rater : UserId) (ft : String) (c : Option String) (reason : String)
    (fbs : List (UserId × UserId × String × Option String))
    (h1 : sys.min_rating ≤ sys.neutral) (h2 : sys.neutral ≤ sys.max_rating)
    (hcl : RatingsClamped sys) :
    RatingsClamped (process_feedback sys now target rater ft c).2 ∧
    RatingsClamped (apply_decay sys now) ∧
    RatingsClamped (file_appeal sys now target reason) ∧
    RatingsClamped (bulk_process sys now fbs).2 := by
  have hmm := h1.trans h2
  exact ⟨process_feedback_clamped sys now target rater ft c hmm hcl,
    apply_decay_clamped sys now hmm hcl,
    fun u r hr => hcl u r hr,
    (bulk_process_clamped now fbs sys hmm hcl).1⟩

theorem claim_C2_witness :
    RatingsClamped (process_feedback sysEx0 0 "alice" "bob" "like" none).2 ∧
    RatingsClamped (apply_decay sysEx0 0) ∧
    RatingsClamped (file_appeal sysEx0 0 "alice" "unfair") ∧
    RatingsClamped (bulk_process sysEx0 0
      [( "alice", "bob", "like", none)]).2 :=
  claim_C2_clamp_invariant sysEx0 0 "alice" "bob" "like" none "unfair"
    [( "alice", "bob", "like", none)]
    (show (0:ℝ) ≤ 2.5 by norm_num) (show (2.5:ℝ) ≤ 5 by norm_num)
    (fun u r h => Option.noConfusion h)

lemma applyDecayGo_not_mem (sys : StarRatingSystem) (now : ℤ) :
    ∀ (l : List (UserId × UserMeta)) (ratings : UserId → Option ℝ) (uid : UserId),
      uid ∉ l.map Prod.fst →
      (applyDecayGo sys now ratings l).1 uid = ratings uid := by
  intro l
  induction l with
  | nil =>
    intro ratings uid h
    simp [applyDecayGo]
  | cons kv rest ih =>
    intro ratings uid h
    obtain ⟨k, m⟩ := kv
    simp only [List.map_cons, List.mem_cons, not_or] at h
    simp only [applyDecayGo]
    split
    · exact ih ratings uid h.2
    · rw [ih _ uid h.2]
      simp [h.1]

lemma applyDecayGo_lookup (sys : StarRatingSystem) (now : ℤ) :
    ∀ (l : List (UserId × UserMeta)) (ratings : UserId → Option ℝ)
      (uid : UserId) (m : UserMeta) (old : Option ℝ),
      (l.map Prod.fst).Nodup → l.lookup uid = some m → ratings uid = old →
      ((((now - m.last_updated : ℤ) : ℝ) / 86400 ≤ 0 →
          (applyDecayGo sys now ratings l).1 uid = old ∧
          (applyDecayGo sys now ratings l).2.lookup uid = some m) ∧
       (¬ (((now - m.last_updated : ℤ) : ℝ) / 86400 ≤ 0) →
          (applyDecayGo sys now ratings l).1 uid =
            some (_clamp sys (sys.neutral +
              (old.getD sys.neutral - sys.neutral) *
              Real.exp (-(Real.log 2 / max 1.0 sys.decay_half_life_days) *
                (((now - m.last_updated : ℤ) : ℝ) / 86400)))) ∧
          (applyDecayGo sys now ratings l).2.lookup uid =
            some { m with
              last_updated := now,
              history := pushHist m.history (HistEvent.decay now
                (old.getD sys.neutral)
                (_clamp sys (sys.neutral +
                  (old.getD sys.neutral - sys.neutral) *
                  Real.exp (-(Real.log 2 / max 1.0 sys.decay_half_life_days) *
                    (((now - m.last_updated : ℤ) : ℝ) / 86400))))) })) := by
  intro l
  induction l with
  | nil =>
    intro ratings uid m old hnd hlk hold
    simp [List.lookup] at hlk
  | cons kv rest ih =>
    intro ratings uid m old hnd hlk hold
    obtain ⟨k, v⟩ := kv
    simp only [List.map_cons, List.nodup_cons] at hnd
    by_cases hk : uid = k
    · subst hk
      rw [List.lookup_cons] at hlk
      simp only [beq_self_eq_true] at hlk
      obtain rfl := Option.some.inj hlk
      simp only [applyDecayGo]
      constructor
      · intro hday
        rw [if_pos hday]
        constructor
        · rw [applyDecayGo_not_mem sys now rest ratings uid hnd.1]
          exact hold
        · rw [List.lookup_cons]
          simp
      · intro hday
        rw [if_neg hday]
        constructor
        · rw [applyDecayGo_not_mem sys now rest _ uid hnd.1]
          simp [hold]
        · rw [List.lookup_cons]
          simp [hold]
    · have hb : (uid == k) = false := beq_eq_false_iff_ne.mpr hk
      have hlk2 : rest.lookup uid = some m := by
        rw [List.lookup_cons] at hlk
        simpa [hb] using hlk
      simp only [applyDecayGo]
      split
      · have h2 := ih ratings uid m old hnd.2 hlk2 hold
        constructor
        · intro hday
          refine ⟨(h2.1 hday).1, ?_⟩
          rw [List.lookup_cons]
          simp [hb, (h2.1 hday).2]
        · intro hday
          refine ⟨(h2.2 hday).1, ?_⟩
          rw [List.lookup_cons]
          simp [hb, (h2.2 hday).2]
      · have h2 := ih (fun u => if u = k then
            some (_clamp sys (sys.neutral +
              ((ratings k).getD sys.neutral - sys.neutral) *
              Real.exp (-(Real.log 2 / max 1.0 sys.decay_half_life_days) *
                (((now - v.last_updated : ℤ) : ℝ) / 86400)))) else ratings u)
          uid m old hnd.2 hlk2 (by simp [hk, hold])
        constructor
        · intro hday
          refine ⟨(h2.1 hday).1, ?_⟩
          rw [List.lookup_cons]
          simp only [hb]
          exact (h2.1 hday).2
        · intro hday
          refine ⟨(h2.2 hday).1, ?_⟩
          rw [List.lookup_cons]
          simp only [hb]
          exact (h2.2 hday).2

/-- C4: for every user with a metadata entry, `apply_decay` with elapsed days
not positive is a per-user no-op; with positive elapsed days it relaxes the
rating toward neutral by `exp(-k * days)` with `k = ln 2 / max 1 half_life`,
clamps, updates `last_updated`, and appends a decay history event; in all
cases the three counters and the cooldown tracker (and appeal log) are
untouched. -/
theorem claim_C4_apply_decay (sys : StarRatingSystem) (now : ℤ)
    (uid : UserId) (m : UserMeta)
    (hnd : (sys.meta.map Prod.fst).Nodup)
    (hlk : sys.meta.lookup uid = some m) :
    ((((now - m.last_updated : ℤ) : ℝ) / 86400 ≤ 0 →
        (apply_decay sys now).ratings uid = sys.ratings uid ∧
        (apply_decay sys now).meta.lookup uid = some m) ∧
     (¬ (((now - m.last_updated : ℤ) : ℝ) / 86400 ≤ 0) →
        (apply_decay sys now).ratings uid =
          some (_clamp sys (sys.neutral +
            ((sys.ratings uid).getD sys.neutral - sys.neutral) *
            Real.exp (-(Real.log 2 / max 1.0 sys.decay_half_life_days) *
              (((now - m.last_updated : ℤ) : ℝ) / 86400)))) ∧
        (apply_decay sys now).meta.lookup uid =
          some { m with
            last_updated := now,
            history := pushHist m.history (HistEvent.decay now
              ((sys.ratings uid).getD sys.neutral)
              (_clamp sys (sys.neutral +
                ((sys.ratings uid).getD sys.neutral - sys.neutral) *
                Real.exp (-(Real.log 2 / max 1.0 sys.decay_half_life_days) *
                  (((now - m.last_updated : ℤ) : ℝ) / 86400))))) }) ∧
     (∀ mm, (apply_decay sys now).meta.lookup uid = some mm →
        mm.received_count = m.received_count ∧
        mm.positive_count = m.positive_count ∧
        mm.negative_count = m.negative_count) ∧
     (apply_decay sys now).last_feedback = sys.last_feedback ∧
     (apply_decay sys now).appeal_log = sys.appeal_log) := by
  have h := applyDecayGo_lookup sys now sys.meta sys.ratings uid m
    (sys.ratings uid) hnd hlk rfl
  refine ⟨?_, ?_, ?_, rfl, rfl⟩
  · intro hday
    exact (h.1 hday)
  · intro hday
    exact (h.2 hday)
  · intro mm hmm
    by_cases hday : (((now - m.last_updated : ℤ) : ℝ) / 86400 ≤ 0)
    · have := (h.1 hday).2
      obtain rfl := Option.some.inj (this.symm.trans hmm)
      exact ⟨rfl, rfl, rfl⟩
    · have := (h.2 hday).2
      have heq : mm = { m with
          last_updated := now,
          history := pushHist m.history (HistEvent.decay now
            ((sys.ratings uid).getD sys.neutral)
            (_clamp sys (sys.neutral +
              ((sys.ratings uid).getD sys.neutral - sys.neutral) *
              Real.exp (-(Real.log 2 / max 1.0 sys.decay_half_life_days) *
                (((now - m.last_updated : ℤ) : ℝ) / 86400))))) } :=
        Option.some.inj ((hmm.symm.trans this))
      rw [heq]
      exact ⟨rfl, rfl, rfl⟩

/-- Example metadata entry: two feedbacks received, last updated at time 0. -/
def mEx : UserMeta :=
  { received_count := 2, positive_count := 1, negative_count := 1,
    last_updated := 0, history := [] }

/-- Example system with one rated user holding a metadata entry. -/
noncomputable def sysExMeta : StarRatingSystem :=
  { sysEx0 with
    ratings := fun u => if u = "alice" then some 4 else none,
    meta := [( "alice", mEx)] }

theorem claim_C4_witness :
    ((((86400 - mEx.last_updated : ℤ) : ℝ) / 86400 ≤ 0 →
        (apply_decay sysExMeta 86400).ratings "alice" = sysExMeta.ratings "alice" ∧
        (apply_decay sysExMeta 86400).meta.lookup "alice" = some mEx) ∧
     (¬ (((86400 - mEx.last_updated : ℤ) : ℝ) / 86400 ≤ 0) →
        (apply_decay sysExMeta 86400).ratings "alice" =
          some (_clamp sysExMeta (sysExMeta.neutral +
            ((sysExMeta.ratings "alice").getD sysExMeta.neutral - sysExMeta.neutral) *
            Real.exp (-(Real.log 2 / max 1.0 sysExMeta.decay_half_life_days) *
              (((86400 - mEx.last_updated : ℤ) : ℝ) / 86400)))) ∧
        (apply_decay sysExMeta 86400).meta.lookup "alice" =
          some { mEx with
            last_updated := 86400,
            history := pushHist mEx.history (HistEvent.decay 86400
              ((sysExMeta.ratings "alice").getD sysExMeta.neutral)
              (_clamp sysExMeta (sysExMeta.neutral +
                ((sysExMeta.ratings "alice").getD sysExMeta.neutral - sysExMeta.neutral) *
                Real.exp (-(Real.log 2 / max 1.0 sysExMeta.decay_half_life_days) *
                  (((86400 - mEx.last_updated : ℤ) : ℝ) / 86400))))) }) ∧
     (∀ mm, (apply_decay sysExMeta 86400).meta.lookup "alice" = some mm →
        mm.received_count = mEx.received_count ∧
        mm.positive_count = mEx.positive_count ∧
        mm.negative_count = mEx.negative_count) ∧
     (apply_decay sysExMeta 86400).last_feedback = sysExMeta.last_feedback ∧
     (apply_decay sysExMeta 86400).appeal_log = sysExMeta.appeal_log) :=
  claim_C4_apply_decay sysExMeta 86400 "alice" mEx (by simp [sysExMeta]) rfl
